import Mathlib

/-!
Shallow embedding of the gokvm VMM core (packages `machine` and `kvm`) used to
check the specification's claims about the VCPU run loop, the I/O port handler
table, register initialization and IRQ injection.

Sources:
- src/machine/machine.go   (package machine)
- src/unnamed/part_000     (package kvm: exit-reason constants, RunData, ioctl wrappers)

Machine integers are modelled as `Nat`; the decode masks (`% 2^k`) mirror the
source's `&`/`>>` arithmetic on `uint64`.  Fallible Go functions returning
`error` are modelled with `Option GoErr` (`none` = nil error).  Host-side
effects (the KVM ioctls, the serial and PCI device back-ends, which live in
packages not present under src/) enter as explicit oracle parameters.
-/

namespace GoKVM

/-! ## kvm package constants (src/unnamed/part_000, lines 28-54) -/

def EXITUNKNOWN : Nat := 0

def EXITIO : Nat := 2

def EXITDEBUG : Nat := 4

def EXITHLT : Nat := 5

def EXITMMIO : Nat := 6

def EXITINTR : Nat := 10

def EXITIOIN : Nat := 0

def EXITIOOUT : Nat := 1

/-- Linux x86-64 errno for EAGAIN. -/
def EAGAIN : Nat := 11

/-- Linux x86-64 errno for EINTR. -/
def EINTR : Nat := 4

/-! ## machine package constants (src/machine/machine.go, lines 50-73) -/

def memSize : Nat := 1 <<< 30

def bootParamAddr : Nat := 0x10000

def cmdlineAddr : Nat := 0x20000

def kernelAddr : Nat := 0x100000

def initrdAddr : Nat := 0xf000000

def serialIRQ : Nat := 4

def virtioNetIRQ : Nat := 10

def virtioBlkIRQ : Nat := 9

/-! ## Go errors

Base error constants that other errors wrap via `fmt.Errorf("...: %w", base)`:
`kvm.ErrorUnexpectedEXITReason` (src/unnamed/part_000 line 56),
`machine.ErrorWriteToCF9` and `machine.errorPCIDeviceNotFoundForPort`
(src/machine/machine.go lines 75-79). -/

inductive BaseErr where
  | unexpectedEXITReason
  | writeToCF9
  | pciDeviceNotFound
deriving DecidableEq

/-- The concrete error values the embedded code can produce.
`unexpectedIOPort` is the value built by `funcError` (machine.go line 468);
`unexpectedExit` is built by RunOnce's default case (machine.go line 451);
`writeCF9` by `funcOutbCF9` (machine.go lines 487-493); `errno` is a raw
errno surfaced by an ioctl wrapper; `devErr` stands for errors produced by
the serial/PCI/virtio back-ends reached through the device oracle. -/
inductive GoErr where
  | unexpectedIOPort (port : Nat)
  | unexpectedExit (reason : Nat)
  | writeCF9 (bytes : List Nat)
  | errno (e : Nat)
  | devErr (tag msg : String)
deriving DecidableEq

/-- Which base error a value wraps (Go `errors.Is`). -/
def GoErr.wraps : GoErr → BaseErr → Bool
  | .unexpectedIOPort _, .unexpectedEXITReason => true
  | .unexpectedExit _, .unexpectedEXITReason => true
  | .writeCF9 _, .writeToCF9 => true
  | _, _ => false

/-- Lower-case hex rendering of a natural number (Go `%x`). -/
def hexStr (n : Nat) : String := String.mk (Nat.toDigits 16 n)

/-- Go `%#x` on a byte slice: `0x` followed by two hex digits per byte. -/
def hexBytes (bytes : List Nat) : String :=
  "0x" ++ String.join (bytes.map fun b => String.mk (Nat.toDigits 16 (b % 256)))

/-- The rendered error message (`err.Error()` in Go).  Messages follow the
`fmt.Errorf` format strings of the source. -/
def GoErr.msg : GoErr → String
  | .unexpectedIOPort p => "unexpected kvm exit reason: unexpected io port 0x" ++ hexStr p
  | .unexpectedExit r => "unexpected kvm exit reason: " ++ hexStr r
  | .writeCF9 bytes =>
      if bytes = [0xe] then "write 0xe to cf9: power cycle via 0xcf9"
      else "write " ++ hexBytes bytes ++ " to cf9: power cycle via 0xcf9"
  | .errno e => "errno " ++ hexStr e
  | .devErr tag msg => tag ++ ": " ++ msg

/-! ## I/O port handlers (machine.go lines 462-641)

Handlers in the source are Go closures of type
`func(m *Machine, port uint64, bytes []byte) error`; a handler may write
through `bytes` into the shared run-state page.  Each closure installed by
`initIOPortHandlers` is named by a `Handler` tag; `handlerSem` gives each a
semantics of type `Nat → List Nat → Option GoErr × List Nat`
(port and byte-slice content in, error and byte-slice content out).
The serial and PCI handlers delegate to the `serial`/`pci` packages, which
are not part of src/; their behaviour is an oracle parameter. -/

inductive Handler where
  | funcNone
  | funcError
  | funcOutbCF9
  | ps2In
  | serialIn
  | serialOut
  | pciConfAddrIn
  | pciConfAddrOut
  | pciConfDataIn
  | pciConfDataOut
  | pciIn
  | pciOut
deriving DecidableEq

def HandlerFn : Type := Nat → List Nat → Option GoErr × List Nat

/-- Behaviour of the handlers whose bodies call into packages outside src/
(serial UART, PCI configuration space, PCI device BARs). -/
def DevOracle : Type := Handler → HandlerFn

/-- Semantics of each installed handler, from machine.go:
* `funcNone` (line 463): returns nil, leaves bytes alone;
* `funcError` (line 467): returns `fmt.Errorf("%w: unexpected io port 0x%x", ErrorUnexpectedEXITReason, port)`;
* `funcOutbCF9` (lines 487-493): both branches return an error wrapping
  `ErrorWriteToCF9` (they differ only in message text, reproduced by `GoErr.msg`);
* the PS/2 IN handler (lines 560-572): sets `bytes[0] = 0x20`, returns nil;
* everything else delegates to a package outside src/ and is given by the oracle. -/
def handlerSem (dev : DevOracle) : Handler → HandlerFn
  | .funcNone => fun _ bytes => (none, bytes)
  | .funcError => fun port bytes => (some (.unexpectedIOPort port), bytes)
  | .funcOutbCF9 => fun _ bytes => (some (.writeCF9 bytes), bytes)
  | .ps2In => fun _ bytes => (none, bytes.set 0 0x20)
  | h => dev h

/-- The I/O port handler table: Go array type
`[0x10000][2]func(...) error` (machine.go line 88) — exactly 65,536 ports
and 2 directions (`EXITIOIN = 0`, `EXITIOOUT = 1`). -/
def IOTable : Type := Fin 0x10000 → Fin 2 → Handler

/-- `m.ioportHandlers[port][direction]` (machine.go line 427).  The decode
guarantees `port < 0x10000`; a `direction` outside `{0,1}` would be an
out-of-range index panic in Go and is unreachable under the KVM ABI — the
fallback value of the dead branch is never relied upon by any theorem. -/
def tableGet (t : IOTable) (port dir : Nat) : Handler :=
  if h : port < 0x10000 ∧ dir < 2 then t ⟨port, h.1⟩ ⟨dir, h.2⟩ else Handler.funcError

/-- One handler-installation loop of `initIOPortHandlers`: ports in the
half-open range `[lo, hi)` get handler `h`, either for one direction or
(`dir = none`) for both.  The source iterates `dir` over `{IN, OUT}`
assigning the same handler at both directions for the direction-generic
ranges; a single `dir = none` step writes the same cells, and cells of
different directions are distinct, so the resulting table is identical. -/
structure Install where
  lo : Nat
  hi : Nat
  dir : Option (Fin 2)
  h : Handler

def Install.covers (s : Install) (p : Fin 0x10000) (d : Fin 2) : Bool :=
  decide (s.lo ≤ p.val) && decide (p.val < s.hi) &&
    (match s.dir with
     | none => true
     | some d2 => decide (d2 = d))

def applyInstall (t : IOTable) (s : Install) : IOTable :=
  fun p d => if s.covers p d then s.h else t p d

/-- The fixed installation sequence of `initIOPortHandlers`
(machine.go lines 497-607), in source order.  Inclusive Go loop bounds
`port <= hi` become half-open `hi + 1`.  `0x3f8` is `serial.COM1Addr`
(the serial package is not under src/; the spec fixes COM1 at 0x3F8..0x3FF). -/
def fixedSteps : List Install :=
  [ ⟨0xcf9, 0xcfa, none, .funcNone⟩,
    ⟨0xcf9, 0xcfa, none, .funcOutbCF9⟩,
    ⟨0x3c0, 0x3db, none, .funcNone⟩,
    ⟨0x3b4, 0x3b6, none, .funcNone⟩,
    ⟨0x70, 0x72, none, .funcNone⟩,
    ⟨0x80, 0xa0, none, .funcNone⟩,
    ⟨0x2f8, 0x300, none, .funcNone⟩,
    ⟨0x3e8, 0x3f0, none, .funcNone⟩,
    ⟨0x2e8, 0x2f0, none, .funcNone⟩,
    ⟨0xcfe, 0xcff, none, .funcNone⟩,
    ⟨0xcfa, 0xcfc, none, .funcNone⟩,
    ⟨0xc000, 0xd000, none, .funcNone⟩,
    ⟨0x60, 0x70, some 0, .ps2In⟩,
    ⟨0x60, 0x70, some 1, .funcNone⟩,
    ⟨0x3f8, 0x400, some 0, .serialIn⟩,
    ⟨0x3f8, 0x400, some 1, .serialOut⟩,
    ⟨0xcf8, 0xcf9, some 0, .pciConfAddrIn⟩,
    ⟨0xcf8, 0xcf9, some 1, .pciConfAddrOut⟩,
    ⟨0xcfc, 0xd00, some 0, .pciConfDataIn⟩,
    ⟨0xcfc, 0xd00, some 1, .pciConfDataOut⟩ ]

/-- The per-PCI-device BAR installation loop (machine.go lines 610-616):
for each device the half-open range `[start, end)` reported by
`GetIORange()` gets `pciInFunc`/`pciOutFunc`.  The device ranges come from
the pci/virtio packages (outside src/) and are a parameter. -/
def devSteps : List (Nat × Nat) → List Install
  | [] => []
  | (s, e) :: rest => ⟨s, e, some 0, .pciIn⟩ :: ⟨s, e, some 1, .pciOut⟩ :: devSteps rest

def installSteps (devs : List (Nat × Nat)) : List Install :=
  fixedSteps ++ devSteps devs

/-- `Machine.initIOPortHandlers` (machine.go lines 462-617): every entry
starts as `funcError` (the default-deny fill of lines 497-501), then the
installation steps overwrite entries in source order (later wins). -/
def initIOPortHandlers (devs : List (Nat × Nat)) : IOTable :=
  (installSteps devs).foldl applyInstall (fun _ _ => Handler.funcError)

/-- A port/direction pair receives a specific (non-default) handler iff some
installation step covers it. -/
def isInstalled (devs : List (Nat × Nat)) (p : Fin 0x10000) (d : Fin 2) : Bool :=
  (installSteps devs).any (fun s => s.covers p d)

/-! ## kvm_run state and the IO-exit decode (src/unnamed/part_000, lines 126-148) -/

structure RunData where
  RequestInterruptWindow : Nat
  ImmediateExit : Nat
  ExitReason : Nat
  ReadyForInterruptInjection : Nat
  IfFlag : Nat
  CR8 : Nat
  ApicBase : Nat
  Data : Fin 32 → Nat

/-- `RunData.IO` (src/unnamed/part_000, lines 140-148):
direction = `Data[0] & 0xFF`, size = `(Data[0] >> 8) & 0xFF`,
port = `(Data[0] >> 16) & 0xFFFF`, count = `(Data[0] >> 32) & 0xFFFFFFFF`,
offset = `Data[1]`.  (Named `ioFields` here; the Go method is called `IO`.) -/
def RunData.ioFields (r : RunData) : Nat × Nat × Nat × Nat × Nat :=
  (r.Data 0 % 0x100,
   r.Data 0 / 0x100 % 0x100,
   r.Data 0 / 0x10000 % 0x10000,
   r.Data 0 / 0x100000000 % 0x100000000,
   r.Data 1)

/-- The components of the decode, named individually. -/
def ioDirection (r : RunData) : Nat := r.Data 0 % 0x100

def ioSize (r : RunData) : Nat := r.Data 0 / 0x100 % 0x100

def ioPort (r : RunData) : Nat := r.Data 0 / 0x10000 % 0x10000

def ioCount (r : RunData) : Nat := r.Data 0 / 0x100000000 % 0x100000000

def ioOffset (r : RunData) : Nat := r.Data 1

/-- The byte slice handed to the handler (machine.go line 431): `size` bytes
at `offset` inside the run-state page (`page` is the page's raw bytes). -/
def ioBytes (r : RunData) (page : List Nat) : List Nat :=
  (page.drop (ioOffset r)).take (ioSize r)

/-- The handler RunOnce looks up for an IO exit (machine.go line 427). -/
def ioHandlerFn (tab : IOTable) (dev : DevOracle) (r : RunData) : HandlerFn :=
  handlerSem dev (tableGet tab (ioPort r) (ioDirection r))

/-- The `for i := 0; i < int(count); i++` loop of RunOnce (machine.go
lines 433-437): invoke the handler repeatedly, stopping at the first error.
In Go the handler writes through the same slice each iteration, so each
invocation sees the bytes left by the previous one; the returned list is the
slice's final content.  The third component counts how many times the
handler was actually invoked (instrumentation only — Go's loop returns
nothing beyond the error). -/
def ioLoop (f : HandlerFn) (port : Nat) : Nat → List Nat → Option GoErr × List Nat × Nat
  | 0, bytes => (none, bytes, 0)
  | count + 1, bytes =>
    match f port bytes with
    | (some e, bs) => (some e, bs, 1)
    | (none, bs) =>
      let rest := ioLoop f port count bs
      (rest.1, rest.2.1, rest.2.2 + 1)

/-- The byte-slice content after `k` handler invocations. -/
def iterH (f : HandlerFn) (port : Nat) : Nat → List Nat → List Nat
  | 0, bytes => bytes
  | k + 1, bytes => iterH f port k (f port bytes).2

/-- `Machine.RunOnce` (machine.go lines 417-453).  `runErr` is the value
returned by `kvm.Run` (the run ioctl wrapper); `page` is the raw content of
the vcpu's run-state page; result is `(isContinue, error)` exactly as the
source's `(bool, error)`.  The `fmt.Println` on HLT is an I/O side effect
with no bearing on the result and is not modelled. -/
def RunOnce (tab : IOTable) (dev : DevOracle) (r : RunData) (page : List Nat)
    (runErr : Option GoErr) : Bool × Option GoErr :=
  if r.ExitReason = EXITHLT then
    (false, runErr)
  else if r.ExitReason = EXITIO then
    match r.ioFields with
    | (direction, size, port, _count, offset) =>
      let f := handlerSem dev (tableGet tab port direction)
      let bytes := (page.drop offset).take size
      match (ioLoop f port _count bytes).1 with
      | some e => (false, some e)
      | none => (true, runErr)
  else if r.ExitReason = EXITUNKNOWN then
    (true, runErr)
  else if r.ExitReason = EXITINTR then
    (true, none)
  else
    match runErr with
    | some e => (false, some e)
    | none => (false, some (GoErr.unexpectedExit r.ExitReason))

/-- `Machine.RunInfiniteLoop` (machine.go lines 386-414), driven by the
finite list of successive `RunOnce` results it observes: a non-nil error is
returned (`some (some e)`), a `false` isContinue returns nil (`some none`),
otherwise the loop keeps going (`none` once the observations run out). -/
def RunInfiniteLoop : List (Bool × Option GoErr) → Option (Option GoErr)
  | [] => none
  | (isContinue, e) :: rest =>
    match e with
    | some err => some (some err)
    | none => if isContinue then RunInfiniteLoop rest else some none

/-- `kvm.Run` (src/unnamed/part_000, lines 193-203): the run ioctl's errno
(`0` = success) is swallowed when it is EAGAIN or EINTR, returned otherwise. -/
def kvmRun (errno : Nat) : Option GoErr :=
  if errno ≠ 0 then
    if errno = EAGAIN ∨ errno = EINTR then none
    else some (GoErr.errno errno)
  else none

/-! ## Registers (src/unnamed/part_000 lines 59-123, machine.go lines 317-356) -/

structure Regs where
  RAX : Nat
  RBX : Nat
  RCX : Nat
  RDX : Nat
  RSI : Nat
  RDI : Nat
  RSP : Nat
  RBP : Nat
  R8 : Nat
  R9 : Nat
  R10 : Nat
  R11 : Nat
  R12 : Nat
  R13 : Nat
  R14 : Nat
  R15 : Nat
  RIP : Nat
  RFLAGS : Nat
deriving DecidableEq

structure Segment where
  Base : Nat
  Limit : Nat
  Selector : Nat
  Typ : Nat
  Present : Nat
  DPL : Nat
  DB : Nat
  S : Nat
  L : Nat
  G : Nat
  AVL : Nat
  Unusable : Nat
deriving DecidableEq

structure Descriptor where
  Base : Nat
  Limit : Nat
deriving DecidableEq

structure Sregs where
  CS : Segment
  DS : Segment
  ES : Segment
  FS : Segment
  GS : Segment
  SS : Segment
  TR : Segment
  LDT : Segment
  GDT : Descriptor
  IDT : Descriptor
  CR0 : Nat
  CR2 : Nat
  CR3 : Nat
  CR4 : Nat
  CR8 : Nat
  EFER : Nat
  ApicBase : Nat
deriving DecidableEq

/-- `Machine.initRegs` (machine.go lines 317-332): get the registers from the
host, set RFLAGS/RIP/RSI, write them back. -/
def initRegs (regs : Regs) : Regs :=
  { regs with RFLAGS := 2, RIP := kernelAddr, RSI := bootParamAddr }

/-- `Machine.initSregs` (machine.go lines 334-356): make every segment flat
(Base 0, Limit 0xFFFFFFFF, G 1), set CS.DB and SS.DB (line 348, folded into
the CS/SS updates here), and set the protected-mode bit of CR0 (line 349). -/
def initSregs (s : Sregs) : Sregs :=
  { s with
    CS := { s.CS with Base := 0, Limit := 0xFFFFFFFF, G := 1, DB := 1 },
    DS := { s.DS with Base := 0, Limit := 0xFFFFFFFF, G := 1 },
    FS := { s.FS with Base := 0, Limit := 0xFFFFFFFF, G := 1 },
    GS := { s.GS with Base := 0, Limit := 0xFFFFFFFF, G := 1 },
    ES := { s.ES with Base := 0, Limit := 0xFFFFFFFF, G := 1 },
    SS := { s.SS with Base := 0, Limit := 0xFFFFFFFF, G := 1, DB := 1 },
    CR0 := s.CR0 ||| 1 }

/-- The per-VCPU register initialization performed by `Machine.LoadLinux`
(machine.go lines 292-300): for every VCPU index it applies `initRegs` and
`initSregs` to that VCPU's register state. -/
def loadLinuxInitCPUs (n : Nat) (st : Fin n → Regs × Sregs) : Fin n → Regs × Sregs :=
  fun i => (initRegs (st i).1, initSregs (st i).2)

/-! ## IRQ injection (machine.go lines 644-654, part_000 lines 310-319) -/

/-- `Machine.InjectSerialIRQ` with the outcome of each `kvm.IRQLine` ioctl
given by the oracle `ioc (irq) (level)`.  The first component records, in
order, the `(irq, level)` pairs actually issued; the second is the returned
error. -/
def InjectSerialIRQ (ioc : Nat → Nat → Option GoErr) : List (Nat × Nat) × Option GoErr :=
  match ioc serialIRQ 0 with
  | some e => ([(serialIRQ, 0)], some e)
  | none =>
    match ioc serialIRQ 1 with
    | some e => ([(serialIRQ, 0), (serialIRQ, 1)], some e)
    | none => ([(serialIRQ, 0), (serialIRQ, 1)], none)

/-! ## Fixed memory size of machine.New (machine.go lines 92-213) -/

/-- Byte length of the anonymous shared mapping `machine.New` creates for
guest RAM (machine.go line 159: `syscall.Mmap(-1, 0, memSize, ...)`).
`New` takes no memory-size parameter. -/
def newGuestMemorySize : Nat := memSize

/-- `MemorySize` of the `UserspaceMemoryRegion` New installs at slot 0
(machine.go line 166: `MemorySize: 1 << 30`). -/
def userMemoryRegionSize : Nat := 1 <<< 30

/-! ## Helper values for concrete evaluations -/

/-- Device oracle whose external handlers are all no-ops (used only to
instantiate theorems at concrete inputs). -/
def devNone : DevOracle := fun _ _ bytes => (none, bytes)

/-- All-zero general registers (concrete evaluation helper). -/
def regs0 : Regs := ⟨0, 0, 0, 0, 0, 0, 0, 0, 0, 0, 0, 0, 0, 0, 0, 0, 0, 0⟩

/-- All-zero segment (concrete evaluation helper). -/
def seg0 : Segment := ⟨0, 0, 0, 0, 0, 0, 0, 0, 0, 0, 0, 0⟩

/-- All-zero special registers (concrete evaluation helper). -/
def sregs0 : Sregs :=
  ⟨seg0, seg0, seg0, seg0, seg0, seg0, seg0, seg0, ⟨0, 0⟩, ⟨0, 0⟩, 0, 0, 0, 0, 0, 0, 0⟩

/-- Run-state value with the given exit reason and `Data[0]`, `Data[1]`. -/
def mkRun (reason d0 d1 : Nat) : RunData :=
  { RequestInterruptWindow := 0, ImmediateExit := 0, ExitReason := reason,
    ReadyForInterruptInjection := 0, IfFlag := 0, CR8 := 0, ApicBase := 0,
    Data := fun i => if i.val = 0 then d0 else if i.val = 1 then d1 else 0 }

/-! ## Helper lemmas about the handler table -/

/-- Pointwise value of a fold of installation steps: the last covering step
wins, else the accumulator. -/
def stepFold (p : Fin 0x10000) (d : Fin 2) (acc : Handler) (steps : List Install) : Handler :=
  steps.foldl (fun a s => if s.covers p d then s.h else a) acc

theorem foldl_applyInstall_apply (steps : List Install) (t : IOTable)
    (p : Fin 0x10000) (d : Fin 2) :
    (steps.foldl applyInstall t) p d = stepFold p d (t p d) steps := by
  induction steps generalizing t with
  | nil => rfl
  | cons s rest ih =>
    show (rest.foldl applyInstall (applyInstall t s)) p d = _
    rw [ih]
    rfl

theorem stepFold_of_not_covered (p : Fin 0x10000) (d : Fin 2) (acc : Handler)
    (steps : List Install) (h : ∀ s ∈ steps, s.covers p d = false) :
    stepFold p d acc steps = acc := by
  induction steps with
  | nil => rfl
  | cons s rest ih =>
    show stepFold p d (if s.covers p d then s.h else acc) rest = acc
    rw [h s (List.mem_cons_self s rest), if_neg (by simp)]
    exact ih fun s2 hs2 => h s2 (List.mem_cons_of_mem s hs2)

theorem stepFold_append (p : Fin 0x10000) (d : Fin 2) (acc : Handler)
    (l1 l2 : List Install) :
    stepFold p d acc (l1 ++ l2) = stepFold p d (stepFold p d acc l1) l2 :=
  List.foldl_append _ _ _ _

theorem devSteps_not_covered (devs : List (Nat × Nat)) (p : Fin 0x10000) (d : Fin 2)
    (h : ∀ se ∈ devs, ¬(se.1 ≤ p.val ∧ p.val < se.2)) :
    ∀ s ∈ devSteps devs, s.covers p d = false := by
  induction devs with
  | nil => intro s hs; cases hs
  | cons se rest ih =>
    intro s hs
    have hse := h se (List.mem_cons_self se rest)
    rcases hs with _ | ⟨_, hs⟩
    · simp only [Install.covers]
      simp only [Bool.and_eq_false_iff, decide_eq_false_iff_not]
      by_cases h1 : se.1 ≤ p.val
      · exact Or.inl (Or.inr fun h2 => hse ⟨h1, h2⟩)
      · exact Or.inl (Or.inl h1)
    · rcases hs with _ | ⟨_, hs⟩
      · simp only [Install.covers]
        simp only [Bool.and_eq_false_iff, decide_eq_false_iff_not]
        by_cases h1 : se.1 ≤ p.val
        · exact Or.inl (Or.inr fun h2 => hse ⟨h1, h2⟩)
        · exact Or.inl (Or.inl h1)
      · exact ih (fun se2 hse2 => h se2 (List.mem_cons_of_mem se hse2)) s hs

theorem initIOPortHandlers_apply (devs : List (Nat × Nat)) (p : Fin 0x10000) (d : Fin 2) :
    initIOPortHandlers devs p d = stepFold p d Handler.funcError (installSteps devs) :=
  foldl_applyInstall_apply _ _ _ _

/-- The default-deny message contains the words "unexpected io port". -/
theorem unexpectedIOPort_msg_split (p : Nat) :
    ∃ s1 s2, (GoErr.unexpectedIOPort p).msg = s1 ++ ("unexpected io port" ++ s2) := by
  refine ⟨"unexpected kvm exit reason: ", " 0x" ++ hexStr p, ?_⟩
  have hlit : "unexpected kvm exit reason: unexpected io port 0x"
      = "unexpected kvm exit reason: " ++ ("unexpected io port" ++ " 0x") := by decide
  show "unexpected kvm exit reason: unexpected io port 0x" ++ hexStr p = _
  rw [hlit, String.append_assoc, String.append_assoc]

/-! ## Helper lemmas about the IO-exit loop -/

theorem ioLoop_all_none (f : HandlerFn) (port : Nat) :
    ∀ (count : Nat) (bytes : List Nat),
      (∀ j, j < count → (f port (iterH f port j bytes)).1 = none) →
      ioLoop f port count bytes = (none, iterH f port count bytes, count) := by
  intro count
  induction count with
  | zero => intro bytes _; rfl
  | succ k ih =>
    intro bytes h
    have h0 : (f port bytes).1 = none := h 0 (Nat.succ_pos k)
    rcases hfb : f port bytes with ⟨e, bs⟩
    rw [hfb] at h0
    subst h0
    have hiter : ∀ j, iterH f port (j + 1) bytes = iterH f port j bs := by
      intro j
      show iterH f port j (f port bytes).2 = _
      rw [hfb]
    have hrec := ih bs (fun j hj => by
      have := h (j + 1) (Nat.succ_lt_succ hj)
      rwa [hiter j] at this)
    show (match f port bytes with
          | (some e, bs) => (some e, bs, 1)
          | (none, bs) =>
            let rest := ioLoop f port k bs
            (rest.1, rest.2.1, rest.2.2 + 1)) = _
    rw [hfb]
    dsimp only
    rw [hrec, hiter k]

theorem ioLoop_first_fail (f : HandlerFn) (port : Nat) :
    ∀ (k count : Nat) (bytes : List Nat) (e : GoErr) (bs' : List Nat),
      k < count →
      (∀ j, j < k → (f port (iterH f port j bytes)).1 = none) →
      f port (iterH f port k bytes) = (some e, bs') →
      ioLoop f port count bytes = (some e, bs', k + 1) := by
  intro k
  induction k with
  | zero =>
    intro count bytes e bs' hk _ hfail
    rcases count with _ | c
    · omega
    · show (match f port bytes with
            | (some e, bs) => (some e, bs, 1)
            | (none, bs) =>
              let rest := ioLoop f port c bs
              (rest.1, rest.2.1, rest.2.2 + 1)) = _
      rw [show f port bytes = (some e, bs') from hfail]
  | succ k ih =>
    intro count bytes e bs' hk hprev hfail
    rcases count with _ | c
    · omega
    · have h0 : (f port bytes).1 = none := hprev 0 (Nat.succ_pos k)
      rcases hfb : f port bytes with ⟨e0, bs⟩
      rw [hfb] at h0
      subst h0
      have hiter : ∀ j, iterH f port (j + 1) bytes = iterH f port j bs := by
        intro j
        show iterH f port j (f port bytes).2 = _
        rw [hfb]
      have hrec := ih c bs e bs' (by omega)
        (fun j hj => by
          have := hprev (j + 1) (Nat.succ_lt_succ hj)
          rwa [hiter j] at this)
        (by rw [← hiter k]; exact hfail)
      show (match f port bytes with
            | (some e, bs) => (some e, bs, 1)
            | (none, bs) =>
              let rest := ioLoop f port c bs
              (rest.1, rest.2.1, rest.2.2 + 1)) = _
      rw [hfb]
      dsimp only
      rw [hrec]

/-- RunOnce on an IO exit is the IO dispatch loop. -/
theorem runOnce_exitio_eq (tab : IOTable) (dev : DevOracle) (r : RunData) (page : List Nat)
    (runErr : Option GoErr) (hio : r.ExitReason = EXITIO) :
    RunOnce tab dev r page runErr =
      match (ioLoop (ioHandlerFn tab dev r) (ioPort r) (ioCount r) (ioBytes r page)).1 with
      | some e => (false, some e)
      | none => (true, runErr) := by
  simp only [RunOnce, hio, if_true, if_false]
  rfl

/-! ## The claims -/

/-- Claim C1: on an IO exit RunOnce decodes direction, size, port, count and
offset from the run-state page exactly as `RunData.IO` does, looks up the
handler at `[port][direction]`, hands it the `size`-byte slice at the decoded
offset of the run-state page, invokes it exactly `count` times when no
invocation fails, and propagates any handler error to its caller. -/
theorem runOnce_exitio_dispatch (tab : IOTable) (dev : DevOracle) (r : RunData)
    (page : List Nat) (runErr : Option GoErr) (hio : r.ExitReason = EXITIO) :
    r.ioFields = (ioDirection r, ioSize r, ioPort r, ioCount r, ioOffset r) ∧
    (ioDirection r = r.Data 0 % 0x100 ∧ ioSize r = r.Data 0 / 2 ^ 8 % 0x100 ∧
      ioPort r = r.Data 0 / 2 ^ 16 % 0x10000 ∧ ioCount r = r.Data 0 / 2 ^ 32 % 0x100000000 ∧
      ioOffset r = r.Data 1) ∧
    (ioOffset r + ioSize r ≤ page.length → (ioBytes r page).length = ioSize r) ∧
    ((∀ j, j < ioCount r →
        (ioHandlerFn tab dev r (ioPort r)
          (iterH (ioHandlerFn tab dev r) (ioPort r) j (ioBytes r page))).1 = none) →
      (ioLoop (ioHandlerFn tab dev r) (ioPort r) (ioCount r) (ioBytes r page)).2.2 = ioCount r ∧
      RunOnce tab dev r page runErr = (true, runErr)) ∧
    (∀ e, (ioLoop (ioHandlerFn tab dev r) (ioPort r) (ioCount r) (ioBytes r page)).1 = some e →
      RunOnce tab dev r page runErr = (false, some e)) := by
  refine ⟨rfl, ⟨rfl, rfl, rfl, rfl, rfl⟩, ?_, ?_, ?_⟩
  · intro hfit
    show ((page.drop (ioOffset r)).take (ioSize r)).length = ioSize r
    rw [List.length_take, List.length_drop]
    omega
  · intro hall
    have h := ioLoop_all_none (ioHandlerFn tab dev r) (ioPort r) (ioCount r) (ioBytes r page) hall
    refine ⟨by rw [h], ?_⟩
    rw [runOnce_exitio_eq tab dev r page runErr hio, h]
  · intro e he
    rw [runOnce_exitio_eq tab dev r page runErr hio, he]

/-- Witness for C1: a 3-repetition, 2-byte IO exit on VGA port 0x3c0 (a no-op
handler) succeeds and continues. -/
theorem runOnce_exitio_dispatch_witness :
    RunOnce (initIOPortHandlers []) devNone
        (mkRun 2 (2 * 0x100 + 0x3c0 * 0x10000 + 3 * 0x100000000) 1) [9, 9, 9, 9, 9] none
      = (true, none) := by
  have h := runOnce_exitio_dispatch (initIOPortHandlers []) devNone
      (mkRun 2 (2 * 0x100 + 0x3c0 * 0x10000 + 3 * 0x100000000) 1) [9, 9, 9, 9, 9] none
      (by decide)
  exact (h.2.2.2.1 (by decide)).2

/-- Claim C2 (code bug): on a DEBUG exit RunOnce falls into the default case
and returns the generic unexpected-exit-reason error — the source has no
distinguished single-step error constant (the repository's own test
`TestSingleStep` expects `kvm.ErrDebug`) — and the run loop is terminal. -/
theorem runOnce_exitdebug_generic :
    RunOnce (initIOPortHandlers []) devNone (mkRun EXITDEBUG 0 0) [] none
        = (false, some (GoErr.unexpectedExit EXITDEBUG)) ∧
    (GoErr.unexpectedExit EXITDEBUG).wraps BaseErr.unexpectedEXITReason = true ∧
    RunInfiniteLoop [RunOnce (initIOPortHandlers []) devNone (mkRun EXITDEBUG 0 0) [] none]
        = some (some (GoErr.unexpectedExit EXITDEBUG)) := by
  exact ⟨by decide, rfl, by decide⟩

/-- Counterexample to claim C3 as stated: on an MMIO exit RunOnce reports
`isContinue = false` (terminal), not continue. -/
theorem runOnce_exitmmio_counterexample :
    (RunOnce (initIOPortHandlers []) devNone (mkRun EXITMMIO 0 0) [] none).1 = false := by
  decide

/-- Claim C3 (amended): RunOnce has no MMIO case at all; an MMIO exit falls
into the default case, returning terminal together with the generic
unexpected-exit-reason error. -/
theorem runOnce_exitmmio_terminal (tab : IOTable) (dev : DevOracle) (r : RunData)
    (page : List Nat) (h : r.ExitReason = EXITMMIO) :
    RunOnce tab dev r page none = (false, some (GoErr.unexpectedExit EXITMMIO)) ∧
    ∀ rest, RunInfiniteLoop (RunOnce tab dev r page none :: rest)
        = some (some (GoErr.unexpectedExit EXITMMIO)) := by
  have h1 : RunOnce tab dev r page none = (false, some (GoErr.unexpectedExit EXITMMIO)) := by
    simp only [RunOnce, h]
    rw [if_neg (by decide), if_neg (by decide), if_neg (by decide), if_neg (by decide)]
  exact ⟨h1, fun rest => by rw [h1]; rfl⟩

/-- Witness for C3's amended theorem at a concrete MMIO exit. -/
theorem runOnce_exitmmio_terminal_witness :
    RunOnce (initIOPortHandlers []) devNone (mkRun 6 0 0) [] none
      = (false, some (GoErr.unexpectedExit EXITMMIO)) :=
  (runOnce_exitmmio_terminal (initIOPortHandlers []) devNone (mkRun 6 0 0) [] (by decide)).1

/-- Claim C4: a run-ioctl failure with EAGAIN or EINTR is swallowed by the
`kvm.Run` wrapper (it returns nil, so RunOnce behaves exactly as on success);
every other ioctl failure is returned to the caller. -/
theorem kvmRun_transient_vs_fatal (e : Nat) :
    ((e = EAGAIN ∨ e = EINTR) → kvmRun e = none ∧
        ∀ tab dev r page, RunOnce tab dev r page (kvmRun e) = RunOnce tab dev r page none) ∧
    (e ≠ 0 → e ≠ EAGAIN → e ≠ EINTR → kvmRun e = some (GoErr.errno e)) := by
  constructor
  · intro h
    have hnone : kvmRun e = none := by
      rcases h with h | h <;> subst h <;> decide
    exact ⟨hnone, fun tab dev r page => by rw [hnone]⟩
  · intro h0 h1 h2
    have hor : ¬(e = EAGAIN ∨ e = EINTR) := by
      rintro (h | h)
      exacts [h1 h, h2 h]
    simp only [kvmRun]
    rw [if_pos h0, if_neg hor]

/-- Witness for C4 at concrete errnos: EAGAIN and EINTR are swallowed, EIO
(errno 5) is fatal. -/
theorem kvmRun_transient_vs_fatal_witness :
    kvmRun EAGAIN = none ∧ kvmRun EINTR = none ∧ kvmRun 5 = some (GoErr.errno 5) :=
  ⟨((kvmRun_transient_vs_fatal EAGAIN).1 (Or.inl rfl)).1,
   ((kvmRun_transient_vs_fatal EINTR).1 (Or.inr rfl)).1,
   (kvmRun_transient_vs_fatal 5).2 (by decide) (by decide) (by decide)⟩

/-- Claim C5: the port table (of Go type `[0x10000][2]func...`, i.e. 65,536
entries per direction) maps every port/direction pair that no installation
step covers to the default-deny handler `funcError`, which returns an error
wrapping `ErrorUnexpectedEXITReason` whose message mentions
"unexpected io port" and which leaves the byte slice unchanged. -/
theorem ioPortTable_default_deny (devs : List (Nat × Nat)) (p : Fin 0x10000) (d : Fin 2)
    (hnone : isInstalled devs p d = false) :
    initIOPortHandlers devs p d = Handler.funcError ∧
    (∀ dev bytes, handlerSem dev Handler.funcError p.val bytes
        = (some (GoErr.unexpectedIOPort p.val), bytes)) ∧
    (∃ s1 s2, (GoErr.unexpectedIOPort p.val).msg = s1 ++ ("unexpected io port" ++ s2)) ∧
    (GoErr.unexpectedIOPort p.val).wraps BaseErr.unexpectedEXITReason = true := by
  refine ⟨?_, fun dev bytes => rfl, unexpectedIOPort_msg_split p.val, rfl⟩
  rw [initIOPortHandlers_apply]
  apply stepFold_of_not_covered
  intro s hs
  simp only [isInstalled] at hnone
  have h2 := List.any_eq_false.mp hnone s hs
  simpa using h2

/-- Witness for C5 at port 0, direction IN, no PCI devices. -/
theorem ioPortTable_default_deny_witness :
    isInstalled [] (0 : Fin 0x10000) (0 : Fin 2) = false ∧
    initIOPortHandlers [] (0 : Fin 0x10000) (0 : Fin 2) = Handler.funcError ∧
    handlerSem devNone Handler.funcError 0 [3] = (some (GoErr.unexpectedIOPort 0), [3]) := by
  have h := ioPortTable_default_deny [] 0 0 (by decide)
  exact ⟨by decide, h.1, by decide⟩

/-- Claim C6: provided no PCI BAR covers 0xCF9, the OUT entry at port 0xCF9 is
`funcOutbCF9`; every OUT access to it (whatever the written bytes) makes
RunOnce return an error wrapping `ErrorWriteToCF9` with `isContinue = false`,
which terminates the VCPU run loop. -/
theorem cf9_out_power_cycle (devs : List (Nat × Nat))
    (hdev : ∀ se ∈ devs, ¬(se.1 ≤ 0xcf9 ∧ 0xcf9 < se.2))
    (dev : DevOracle) (r : RunData) (page : List Nat) (runErr : Option GoErr)
    (hio : r.ExitReason = EXITIO) (hport : ioPort r = 0xcf9)
    (hdir : ioDirection r = EXITIOOUT) (hcount : 0 < ioCount r) :
    initIOPortHandlers devs (0xcf9 : Fin 0x10000) (1 : Fin 2) = Handler.funcOutbCF9 ∧
    RunOnce (initIOPortHandlers devs) dev r page runErr
      = (false, some (GoErr.writeCF9 (ioBytes r page))) ∧
    (GoErr.writeCF9 (ioBytes r page)).wraps BaseErr.writeToCF9 = true ∧
    ∀ rest, RunInfiniteLoop (RunOnce (initIOPortHandlers devs) dev r page runErr :: rest)
      = some (some (GoErr.writeCF9 (ioBytes r page))) := by
  have hval : ((0xcf9 : Fin 0x10000)).val = 0xcf9 := rfl
  have htab : initIOPortHandlers devs (0xcf9 : Fin 0x10000) (1 : Fin 2)
      = Handler.funcOutbCF9 := by
    rw [initIOPortHandlers_apply, installSteps, stepFold_append]
    have hfix : stepFold (0xcf9 : Fin 0x10000) (1 : Fin 2) Handler.funcError fixedSteps
        = Handler.funcOutbCF9 := by decide
    rw [hfix]
    apply stepFold_of_not_covered
    apply devSteps_not_covered
    rw [hval]
    exact hdev
  have hf : tableGet (initIOPortHandlers devs) (ioPort r) (ioDirection r)
      = Handler.funcOutbCF9 := by
    rw [hport, hdir]
    simp only [tableGet]
    rw [dif_pos (by decide : (0xcf9 : Nat) < 0x10000 ∧ EXITIOOUT < 2)]
    exact htab
  have hfail : ioHandlerFn (initIOPortHandlers devs) dev r (ioPort r) (ioBytes r page)
      = (some (GoErr.writeCF9 (ioBytes r page)), ioBytes r page) := by
    show handlerSem dev (tableGet (initIOPortHandlers devs) (ioPort r) (ioDirection r))
        (ioPort r) (ioBytes r page) = _
    rw [hf]
    rfl
  have hloop := ioLoop_first_fail (ioHandlerFn (initIOPortHandlers devs) dev r) (ioPort r)
      0 (ioCount r) (ioBytes r page) (GoErr.writeCF9 (ioBytes r page)) (ioBytes r page)
      hcount (fun j hj => absurd hj (Nat.not_lt_zero j)) hfail
  have hro : RunOnce (initIOPortHandlers devs) dev r page runErr
      = (false, some (GoErr.writeCF9 (ioBytes r page))) := by
    rw [runOnce_exitio_eq (initIOPortHandlers devs) dev r page runErr hio, hloop]
  exact ⟨htab, hro, rfl, fun rest => by rw [hro]; rfl⟩

/-- Witness for C6: a 1-byte OUT of 0x0E to port 0xCF9. -/
theorem cf9_out_power_cycle_witness :
    RunOnce (initIOPortHandlers []) devNone
        (mkRun 2 (1 + 0x100 + 0xcf9 * 0x10000 + 0x100000000) 0) [0xe] none
      = (false, some (GoErr.writeCF9 [0xe])) := by
  have h := cf9_out_power_cycle [] (fun se hse => absurd hse (List.not_mem_nil se))
      devNone (mkRun 2 (1 + 0x100 + 0xcf9 * 0x10000 + 0x100000000) 0) [0xe] none
      (by decide) (by decide) (by decide) (by decide)
  exact h.2.1

/-- Claim C7: the register initialization LoadLinux performs on every VCPU
yields RFLAGS = 2, RIP = 0x100000, RSI = 0x10000, all six segments flat
(Base 0, Limit 0xFFFFFFFF, G 1), CS.DB = SS.DB = 1, and bit 0 of CR0 set. -/
theorem loadLinux_initial_register_state (n : Nat) (st : Fin n → Regs × Sregs) (i : Fin n) :
    (loadLinuxInitCPUs n st i).1.RFLAGS = 2 ∧
    (loadLinuxInitCPUs n st i).1.RIP = 0x100000 ∧
    (loadLinuxInitCPUs n st i).1.RSI = 0x10000 ∧
    ((loadLinuxInitCPUs n st i).2.CS.Base = 0 ∧
      (loadLinuxInitCPUs n st i).2.CS.Limit = 0xFFFFFFFF ∧
      (loadLinuxInitCPUs n st i).2.CS.G = 1) ∧
    ((loadLinuxInitCPUs n st i).2.DS.Base = 0 ∧
      (loadLinuxInitCPUs n st i).2.DS.Limit = 0xFFFFFFFF ∧
      (loadLinuxInitCPUs n st i).2.DS.G = 1) ∧
    ((loadLinuxInitCPUs n st i).2.ES.Base = 0 ∧
      (loadLinuxInitCPUs n st i).2.ES.Limit = 0xFFFFFFFF ∧
      (loadLinuxInitCPUs n st i).2.ES.G = 1) ∧
    ((loadLinuxInitCPUs n st i).2.FS.Base = 0 ∧
      (loadLinuxInitCPUs n st i).2.FS.Limit = 0xFFFFFFFF ∧
      (loadLinuxInitCPUs n st i).2.FS.G = 1) ∧
    ((loadLinuxInitCPUs n st i).2.GS.Base = 0 ∧
      (loadLinuxInitCPUs n st i).2.GS.Limit = 0xFFFFFFFF ∧
      (loadLinuxInitCPUs n st i).2.GS.G = 1) ∧
    ((loadLinuxInitCPUs n st i).2.SS.Base = 0 ∧
      (loadLinuxInitCPUs n st i).2.SS.Limit = 0xFFFFFFFF ∧
      (loadLinuxInitCPUs n st i).2.SS.G = 1) ∧
    (loadLinuxInitCPUs n st i).2.CS.DB = 1 ∧
    (loadLinuxInitCPUs n st i).2.SS.DB = 1 ∧
    ((loadLinuxInitCPUs n st i).2.CR0).testBit 0 = true := by
  refine ⟨rfl, rfl, rfl, ⟨rfl, rfl, rfl⟩, ⟨rfl, rfl, rfl⟩, ⟨rfl, rfl, rfl⟩,
    ⟨rfl, rfl, rfl⟩, ⟨rfl, rfl, rfl⟩, ⟨rfl, rfl, rfl⟩, rfl, rfl, ?_⟩
  show ((st i).2.CR0 ||| 1).testBit 0 = true
  simp [Nat.testBit_lor]

/-- Witness for C7: the register state of the single VCPU of a 1-CPU machine
whose registers all start at zero. -/
theorem loadLinux_initial_register_state_witness :
    (loadLinuxInitCPUs 1 (fun _ => (regs0, sregs0)) 0).1.RFLAGS = 2 ∧
    (loadLinuxInitCPUs 1 (fun _ => (regs0, sregs0)) 0).1.RIP = 0x100000 ∧
    (loadLinuxInitCPUs 1 (fun _ => (regs0, sregs0)) 0).1.RSI = 0x10000 ∧
    ((loadLinuxInitCPUs 1 (fun _ => (regs0, sregs0)) 0).2.CR0).testBit 0 = true := by
  have h := loadLinux_initial_register_state 1 (fun _ => (regs0, sregs0)) 0
  exact ⟨h.1, h.2.1, h.2.2.1, h.2.2.2.2.2.2.2.2.2.2.2⟩

/-- Claim C8: InjectSerialIRQ issues IRQ-line operations only on line 4, in
the order level 0 then level 1; it returns nil exactly when both succeed, and
does not issue the second operation when the first fails. -/
theorem injectSerialIRQ_sequence (ioc : Nat → Nat → Option GoErr) :
    ((InjectSerialIRQ ioc).2 = none ↔ ioc serialIRQ 0 = none ∧ ioc serialIRQ 1 = none) ∧
    (∀ e, ioc serialIRQ 0 = some e →
        InjectSerialIRQ ioc = ([(serialIRQ, 0)], some e)) ∧
    (∀ e, ioc serialIRQ 0 = none → ioc serialIRQ 1 = some e →
        InjectSerialIRQ ioc = ([(serialIRQ, 0), (serialIRQ, 1)], some e)) ∧
    (ioc serialIRQ 0 = none → ioc serialIRQ 1 = none →
        InjectSerialIRQ ioc = ([(serialIRQ, 0), (serialIRQ, 1)], none)) ∧
    serialIRQ = 4 := by
  refine ⟨?_, ?_, ?_, ?_, rfl⟩ <;>
    rcases h0 : ioc serialIRQ 0 with _ | e0 <;>
    rcases h1 : ioc serialIRQ 1 with _ | e1 <;>
    simp [InjectSerialIRQ, h0, h1]

/-- Witness for C8: both edges issued on success; only the first issued when
it fails. -/
theorem injectSerialIRQ_sequence_witness :
    InjectSerialIRQ (fun _ _ => none) = ([(4, 0), (4, 1)], none) ∧
    InjectSerialIRQ (fun _ l => if l = 0 then some (GoErr.errno 5) else none)
      = ([(4, 0)], some (GoErr.errno 5)) :=
  ⟨(injectSerialIRQ_sequence (fun _ _ => none)).2.2.2.1 rfl rfl,
   (injectSerialIRQ_sequence (fun _ l => if l = 0 then some (GoErr.errno 5) else none)).2.1
     (GoErr.errno 5) rfl⟩

/-- Claim C9 (code bug, supporting evaluation): the guest memory size of
machine.New is the fixed constant `memSize = 1 GiB`; New takes no size
parameter, so no requested size is checked and no `ErrMemTooSmall` exists. -/
theorem new_memsize_fixed :
    memSize = 2 ^ 30 ∧ newGuestMemorySize = 2 ^ 30 ∧ userMemoryRegionSize = 2 ^ 30 ∧
    newGuestMemorySize ≠ 2 ^ 16 := by
  exact ⟨by decide, by decide, by decide, by decide⟩

/-- Claim C10: during an IO exit, if the handler's first error occurs at
repetition `k` (< count), the loop stops after `k + 1` invocations, RunOnce
returns `isContinue = false` with that error, and the run loop terminates
with it. -/
theorem runOnce_exitio_error_stops (tab : IOTable) (dev : DevOracle) (r : RunData)
    (page : List Nat) (runErr : Option GoErr) (k : Nat) (e : GoErr) (bs' : List Nat)
    (hio : r.ExitReason = EXITIO) (hk : k < ioCount r)
    (hprev : ∀ j, j < k →
      (ioHandlerFn tab dev r (ioPort r)
        (iterH (ioHandlerFn tab dev r) (ioPort r) j (ioBytes r page))).1 = none)
    (hfail : ioHandlerFn tab dev r (ioPort r)
        (iterH (ioHandlerFn tab dev r) (ioPort r) k (ioBytes r page)) = (some e, bs')) :
    ioLoop (ioHandlerFn tab dev r) (ioPort r) (ioCount r) (ioBytes r page)
        = (some e, bs', k + 1) ∧
    RunOnce tab dev r page runErr = (false, some e) ∧
    ∀ rest, RunInfiniteLoop (RunOnce tab dev r page runErr :: rest) = some (some e) := by
  have hloop := ioLoop_first_fail (ioHandlerFn tab dev r) (ioPort r) k (ioCount r)
      (ioBytes r page) e bs' hk hprev hfail
  have hro : RunOnce tab dev r page runErr = (false, some e) := by
    rw [runOnce_exitio_eq tab dev r page runErr hio, hloop]
  exact ⟨hloop, hro, fun rest => by rw [hro]; rfl⟩

/-- Witness for C10: a count-2 IO exit on undeny-handled port 0 fails at the
first invocation and RunOnce stops with the deny error. -/
theorem runOnce_exitio_error_stops_witness :
    RunOnce (initIOPortHandlers []) devNone (mkRun 2 (0x100 + 2 * 0x100000000) 0) [7] none
      = (false, some (GoErr.unexpectedIOPort 0)) := by
  have h := runOnce_exitio_error_stops (initIOPortHandlers []) devNone
      (mkRun 2 (0x100 + 2 * 0x100000000) 0) [7] none 0 (GoErr.unexpectedIOPort 0) [7]
      (by decide) (by decide) (fun j hj => absurd hj (Nat.not_lt_zero j)) (by decide)
  exact h.2.1

end GoKVM
